import Mathlib

/-!
# Verification of the TASK_Manager authentication backend

Shallow embedding of `src/server/index.ts` (Express auth backend):
string normalization, the status gate, AES-256-GCM password envelope
codec, the credential verifier, and the login/register handlers, with
theorems checking the behavioral claims of the specification.

Conventions of the embedding:
* JavaScript strings are Lean `String`; Node `Buffer`s are `List Nat`
  (byte values, each `< 256`).
* Node's `Buffer.from(s, "utf8")` is a real UTF-8 encoder; Node's
  lenient hex decoding (stop at the first invalid character, drop an
  odd trailing digit) is modelled exactly.
* Randomness (`crypto.randomBytes(12)`) is threaded as an explicit
  `iv` parameter; the environment variable `PASSWORD_KEY` as an
  explicit `Option String` parameter.
* Thrown exceptions become `Except DbError`; the request handlers are
  total functions from an explicit storage interface to the response
  object they send.
-/

/-- A JavaScript runtime value as it can appear in a parsed JSON body or
in a row returned by the database driver. -/
inductive JsVal where
  | str : String → JsVal
  | num : Int → JsVal
  | bool : Bool → JsVal
  | nul : JsVal
  | undef : JsVal
deriving DecidableEq, Repr

/-- JavaScript `String.prototype.trim`: strip leading and trailing
whitespace (space, tab, newline, carriage return — the whitespace that
can actually reach a JSON-parsed body). -/
def jsTrim (s : String) : String :=
  String.mk (((s.data.dropWhile Char.isWhitespace).reverse.dropWhile
    Char.isWhitespace).reverse)

/-- JavaScript `String.prototype.toLowerCase` on the ASCII range. -/
def jsToLower (s : String) : String :=
  String.mk (s.data.map Char.toLower)

/-- `toCleanString` from index.ts: a string is trimmed, every
non-string value becomes `""`. -/
def toCleanString : JsVal → String
  | .str s => jsTrim s
  | _ => ""

/-- `isActiveStatus` from index.ts: clean and lowercase; the empty
string passes, otherwise the value must be one of the accepted
"active" spellings. -/
def isActiveStatus (value : JsVal) : Bool :=
  let v := jsToLower (toCleanString value)
  if v = "" then true
  else v = "activo" || v = "active" || v = "enabled"

/-- JavaScript `String(v ?? "")` as used on `user.password_hash`. -/
def jsToStringOrEmpty : JsVal → String
  | .str s => s
  | .num n => toString n
  | .bool b => cond b "true" "false"
  | .nul => ""
  | .undef => ""

/-! ## Bytes: UTF-8 encoding (Node `Buffer.from(s, "utf8")`) -/

/-- UTF-8 encoding of a single character (1 to 4 bytes). -/
def utf8EncodeChar (c : Char) : List Nat :=
  if c.toNat < 128 then [c.toNat]
  else if c.toNat < 2048 then [192 + c.toNat / 64, 128 + c.toNat % 64]
  else if c.toNat < 65536 then
    [224 + c.toNat / 4096, 128 + (c.toNat / 64) % 64, 128 + c.toNat % 64]
  else
    [240 + c.toNat / 262144, 128 + (c.toNat / 4096) % 64, 128 + (c.toNat / 64) % 64,
     128 + c.toNat % 64]

/-- UTF-8 encoding of a string, the byte content of
`Buffer.from(s, "utf8")`. -/
def utf8Encode (s : String) : List Nat :=
  s.data.flatMap utf8EncodeChar

/-- Number of continuation bytes announced by a UTF-8 lead byte. -/
def utf8ContBytes (b : Nat) : Nat :=
  if b < 128 then 0 else if b < 224 then 1 else if b < 240 then 2 else 3

/-- Reassemble a code point from a lead byte and its continuation
bytes. -/
def utf8Assemble (b : Nat) : List Nat → Nat
  | [] => b
  | [b1] => (b - 192) * 64 + (b1 - 128)
  | [b1, b2] => (b - 224) * 4096 + (b1 - 128) * 64 + (b2 - 128)
  | b1 :: b2 :: b3 :: _ => (b - 240) * 262144 + (b1 - 128) * 4096 + (b2 - 128) * 64 + (b3 - 128)

/-- UTF-8 decoding of a byte list back to characters, the behavior of
`buffer.toString("utf8")` on well-formed encodings (ill-formed input,
which the theorems never produce, is mapped loosely to U+FFFD). -/
def utf8DecodeGo : Nat → List Nat → List Char
  | _, [] => []
  | 0, _ :: _ => []
  | fuel + 1, b :: rest =>
    if rest.length < utf8ContBytes b then [Char.ofNat 65533]
    else
      Char.ofNat (utf8Assemble b (rest.take (utf8ContBytes b))) ::
        utf8DecodeGo fuel (rest.drop (utf8ContBytes b))

/-- Entry point of the decoder: the fuel `bs.length` always suffices,
one lead byte is consumed per step. -/
def utf8DecodeChars (bs : List Nat) : List Char :=
  utf8DecodeGo bs.length bs

/-- `buffer.toString("utf8")`. -/
def utf8Decode (bs : List Nat) : String :=
  String.mk (utf8DecodeChars bs)

/-! ## Hex encoding (Node `buffer.toString("hex")` / `Buffer.from(s, "hex")`) -/

/-- Lowercase hex digit for a value `< 16`. -/
def hexDigit (n : Nat) : Char :=
  if n < 10 then Char.ofNat (48 + n) else Char.ofNat (87 + n)

/-- The two hex characters of one byte. -/
def hexByteChars (b : Nat) : List Char :=
  [hexDigit (b / 16), hexDigit (b % 16)]

/-- `buffer.toString("hex")`: lowercase hex, two digits per byte. -/
def hexEncode (bs : List Nat) : String :=
  String.mk (bs.flatMap hexByteChars)

/-- Value of one hex character, `none` for a non-hex character. -/
def hexVal (c : Char) : Option Nat :=
  if 48 ≤ c.toNat ∧ c.toNat ≤ 57 then some (c.toNat - 48)
  else if 97 ≤ c.toNat ∧ c.toNat ≤ 102 then some (c.toNat - 87)
  else if 65 ≤ c.toNat ∧ c.toNat ≤ 70 then some (c.toNat - 55)
  else none

/-- Node's lenient hex decoder: decode two characters at a time, stop at
the first invalid character, drop an odd trailing digit. This is the
behavior of `Buffer.from(s, "hex")`, which never throws. -/
def hexDecodeChars : List Char → List Nat
  | c1 :: c2 :: rest =>
    match hexVal c1, hexVal c2 with
    | some h, some l => (h * 16 + l) :: hexDecodeChars rest
    | _, _ => []
  | _ => []

/-- `Buffer.from(s, "hex")`. -/
def hexDecode (s : String) : List Nat :=
  hexDecodeChars s.data

/-! ## Base64 decoding (Node `Buffer.from(s, "base64")`) -/

/-- Value of one base64 alphabet character. -/
def base64Val (c : Char) : Option Nat :=
  if 65 ≤ c.toNat ∧ c.toNat ≤ 90 then some (c.toNat - 65)
  else if 97 ≤ c.toNat ∧ c.toNat ≤ 122 then some (c.toNat - 71)
  else if 48 ≤ c.toNat ∧ c.toNat ≤ 57 then some (c.toNat + 4)
  else if c = '+' then some 62
  else if c = '/' then some 63
  else none

/-- Reassemble 6-bit groups into bytes, dropping leftover bits, as
Node's forgiving base64 decoder does. -/
def base64Bytes : List Nat → List Nat
  | a :: b :: c :: d :: rest =>
      (a * 4 + b / 16) :: ((b % 16) * 16 + c / 4) :: ((c % 4) * 64 + d) :: base64Bytes rest
  | [a, b, c] => [a * 4 + b / 16, (b % 16) * 16 + c / 4]
  | [a, b] => [a * 4 + b / 16]
  | _ => []

/-- Modelled from the spec: `Buffer.from(s, "base64")`, the base64
decoder of Node's Buffer (external library code, not part of this
repository). Characters before the first `=` are decoded as 6-bit
groups; leftover bits are dropped. -/
def base64Decode (s : String) : List Nat :=
  base64Bytes ((s.data.takeWhile (fun c => c ≠ '=')).filterMap base64Val)

/-! ## Key derivation: `getAesKey` -/

/-- The test `/^[0-9a-fA-F]{64}$/.test(raw)`. -/
def isHex64 (s : String) : Bool :=
  s.data.length = 64 && s.data.all (fun c => (hexVal c).isSome)

/-- The test `/^[A-Za-z0-9+/=]+$/.test(raw)`. -/
def isBase64Shape (s : String) : Bool :=
  s.data ≠ [] && s.data.all (fun c => (base64Val c).isSome || c = '=')

/-- `getAesKey` from index.ts: derive the 32-byte AES key from the
`PASSWORD_KEY` environment value (threaded here as `raw`): 64 hex
characters, else base64 decoding to exactly 32 bytes, else raw UTF-8
bytes of length 32, else no key. A missing or empty variable is no key
(`if (!raw) return null`). -/
def getAesKey (raw : Option String) : Option (List Nat) :=
  match raw with
  | none => none
  | some raw =>
    if raw = "" then none
    else if isHex64 raw then some (hexDecode raw)
    else if isBase64Shape raw ∧ (base64Decode raw).length = 32 then some (base64Decode raw)
    else if (utf8Encode raw).length = 32 then some (utf8Encode raw)
    else none

/-! ## AES-256-GCM model

The source calls Node's `crypto.createCipheriv("aes-256-gcm", ...)` /
`createDecipheriv`; the cipher itself is external library code, not
part of this repository. -/

/-- Modelled from the spec: the AES-256-GCM keystream (CTR mode) that
`crypto.createCipheriv("aes-256-gcm", key, iv)` applies to the
plaintext. Missing from src/: Node's crypto module. The model keeps
the structure the spec relies on — a byte stream determined by
`(key, iv)` XORed onto the data — with a concrete mixing function in
place of the AES block cipher. -/
def gcmKeystream (key iv : List Nat) (n : Nat) : List Nat :=
  let seed := key.foldl (fun a b => a * 131 + b + 7) 5 + 31 * iv.foldl (fun a b => a * 173 + b + 3) 9
  (List.range n).map (fun i => (seed + i * 251 + 17) % 256)

/-- XOR a byte list against the `(key, iv)` keystream. -/
def gcmXor (key iv data : List Nat) : List Nat :=
  (data.zip (gcmKeystream key iv data.length)).map (fun p => p.1 ^^^ p.2)

/-- Modelled from the spec: the 16-byte GCM authentication tag over the
ciphertext, determined by `(key, iv, ciphertext)`. Missing from src/:
Node's crypto module. -/
def gcmTag (key iv ct : List Nat) : List Nat :=
  let seed := ct.foldl (fun a b => a * 257 + b + 1)
    (key.foldl (fun a b => a * 193 + b + 11) 3 + 59 * iv.foldl (fun a b => a * 239 + b + 5) 7)
  (List.range 16).map (fun i => (seed + i * 97 + 13) % 256)

/-- Modelled from the spec: GCM encryption
(`cipher.update` + `cipher.final` + `cipher.getAuthTag`), producing
the ciphertext and the 16-byte tag. -/
def gcmSeal (key iv pt : List Nat) : List Nat × List Nat :=
  let ct := gcmXor key iv pt
  (ct, gcmTag key iv ct)

/-- Modelled from the spec: GCM decryption with tag verification, the
region the source wraps in `try { ... } catch { return null }`. Every
condition on which Node would throw there (empty IV in
`createDecipheriv`, a tag that is not 16 bytes in `setAuthTag`, tag
verification failure in `decipher.final`) is `none`. -/
def gcmOpen (key iv tag ct : List Nat) : Option (List Nat) :=
  if iv = [] then none
  else if tag.length ≠ 16 then none
  else if tag ≠ gcmTag key iv ct then none
  else some (gcmXor key iv ct)

/-! ## The cipher codec: `encryptPassword` / `decryptPassword` -/

/-- A thrown JavaScript error as the handlers observe it: an optional
`code` and an optional `message` field. -/
structure DbError where
  code : Option String
  message : Option String
deriving DecidableEq, Repr

/-- `encryptPassword` from index.ts. The 12 random bytes of
`crypto.randomBytes(12)` are threaded as `iv`; the `PASSWORD_KEY`
environment value as `rawKey`. A missing/invalid key is the thrown
`Error("PASSWORD_KEY no configurado o invalido.")`. -/
def encryptPassword (rawKey : Option String) (iv : List Nat) (plain : String) :
    Except DbError String :=
  match getAesKey rawKey with
  | none => .error { code := none, message := some "PASSWORD_KEY no configurado o invalido." }
  | some key =>
    let sealed := gcmSeal key iv (utf8Encode plain)
    .ok (hexEncode iv ++ ":" ++ hexEncode sealed.2 ++ ":" ++ hexEncode sealed.1)

/-- JavaScript `payload.split(":")` on a character list. -/
def splitColonChars : List Char → List (List Char)
  | [] => [[]]
  | c :: rest =>
    match splitColonChars rest with
    | [] => [[]]
    | w :: ws => if c = ':' then [] :: w :: ws else (c :: w) :: ws

/-- `payload.split(":")`. -/
def splitColon (s : String) : List String :=
  (splitColonChars s.data).map String.mk

/-- `decryptPassword` from index.ts: split on `:`, require exactly 3
non-empty fields, require a configured key, hex-decode each field
(leniently, as `Buffer.from(_, "hex")` does), then GCM-decrypt
verifying the tag. Total: every failure is `none`, never an
exception. -/
def decryptPassword (rawKey : Option String) (payload : String) : Option String :=
  let parts := splitColon payload
  if parts.length ≠ 3 then none
  else
    match parts with
    | [ivHex, tagHex, dataHex] =>
      if ivHex = "" ∨ tagHex = "" ∨ dataHex = "" then none
      else
        match getAesKey rawKey with
        | none => none
        | some key =>
          match gcmOpen key (hexDecode ivHex) (hexDecode tagHex) (hexDecode dataHex) with
          | none => none
          | some pt => some (utf8Decode pt)
    | _ => none

/-! ## Comparator and verifier -/

/-- `timingSafeEqualString` from index.ts: UTF-8 byte buffers, `false`
on a length mismatch, else `crypto.timingSafeEqual`, whose result is
byte-for-byte equality. -/
def timingSafeEqualString (a b : String) : Bool :=
  let aBuf := utf8Encode a
  let bBuf := utf8Encode b
  if aBuf.length ≠ bBuf.length then false else aBuf = bBuf

/-- `verifyPassword` from index.ts: empty stored credential fails; a
stored credential containing `:` goes through decryption; anything
else is compared directly as legacy plaintext. -/
def verifyPassword (rawKey : Option String) (plain stored : String) : Bool :=
  if stored = "" then false
  else if stored.data.contains ':' then
    match decryptPassword rawKey stored with
    | none => false
    | some decrypted => timingSafeEqualString plain decrypted
  else timingSafeEqualString plain stored

/-! ## Storage error classification -/

/-- Whether `p` is an initial segment of `l`. -/
def charsStartWith : List Char → List Char → Bool
  | [], _ => true
  | _ :: _, [] => false
  | a :: p, b :: l => a = b && charsStartWith p l

/-- Whether `p` occurs as a contiguous run inside `l` (JavaScript
`String.prototype.includes`). -/
def charsContain (p : List Char) : List Char → Bool
  | [] => charsStartWith p []
  | b :: l => charsStartWith p (b :: l) || charsContain p l

/-- `isBadFieldError` from index.ts: the column-not-found class —
driver code `ER_BAD_FIELD_ERROR`, or a message containing
"Unknown column" (`String(error?.message || "")`). -/
def isBadFieldError (e : DbError) : Bool :=
  e.code = some "ER_BAD_FIELD_ERROR" ||
    charsContain "Unknown column".data (e.message.getD "").data

/-! ## Responses and the storage interface -/

/-- The user object returned by a successful login
(`{ id, name, email, role, tenant_id }`). -/
structure PublicUser where
  id : JsVal
  name : JsVal
  email : JsVal
  role : JsVal
  tenant_id : JsVal
deriving DecidableEq, Repr

/-- The JSON response a handler sends: HTTP status, `ok`, and the
optional `error` / `user` fields. -/
structure ApiResponse where
  status : Nat
  ok : Bool
  error : Option String := none
  user : Option PublicUser := none
deriving DecidableEq, Repr

/-- An error response `res.status(st).json({ ok: false, error: msg })`. -/
def respError (st : Nat) (msg : String) : ApiResponse :=
  { status := st, ok := false, error := some msg }

/-- The message the catch-all handlers send:
`e?.message || "Error interno."` (an absent or empty message is
falsy). -/
def errMsg (e : DbError) : String :=
  match e.message with
  | some m => if m = "" then "Error interno." else m
  | none => "Error interno."

/-- The catch-all `res.status(500).json({ ok: false, error: e?.message || "Error interno." })`. -/
def resp500 (e : DbError) : ApiResponse :=
  respError 500 (errMsg e)

/-- A user row as returned by the login SELECT (all column values are
runtime values of unknown shape). -/
structure UserRow where
  id : JsVal
  name : JsVal
  email : JsVal
  role : JsVal
  user_status : JsVal
  password_hash : JsVal
  tenant_id : JsVal
  tenant_status : JsVal
deriving DecidableEq, Repr

/-- A tenant row as returned by the register SELECT (`id, status`). -/
structure TenantRow where
  id : JsVal
  status : JsVal
deriving DecidableEq, Repr

/-- The parsed request body of `/auth/login` (absent fields are
`undef`). -/
structure LoginBody where
  tenant : JsVal
  email : JsVal
  password : JsVal
deriving DecidableEq, Repr

/-- The parsed request body of `/auth/register`. `status` and `role`
can be present in the client's JSON but are never read by the handler;
they are carried here so that insensitivity to them is statable. -/
structure RegisterBody where
  tenant : JsVal
  name : JsVal
  email : JsVal
  phone : JsVal
  country_code : JsVal
  password : JsVal
  status : JsVal := .undef
  role : JsVal := .undef
deriving DecidableEq, Repr

/-- External storage as the login handler sees it: acquiring a
connection, the user lookup (by lowercased email and tenant), and the
best-effort last-login update. Each operation either succeeds or
throws a `DbError`. -/
structure LoginStore where
  getConn : Except DbError Unit
  lookupUser : String → String → Except DbError (Option UserRow)
  touchLastLogin : JsVal → Except DbError Unit

/-- External storage as the register handler sees it: connection,
tenant lookup, duplicate-user lookup, and the INSERT attempt for a
given variant index with the parameter list the handler passes. -/
structure RegisterStore where
  getConn : Except DbError Unit
  lookupTenant : String → Except DbError (Option TenantRow)
  lookupExistingUser : String → String → Except DbError Bool
  insertUser : Nat → List JsVal → Except DbError Unit

/-! ## The login handler (`app.post("/auth/login")`) -/

/-- The `/auth/login` handler from index.ts as a total function of the
storage interface, the `PASSWORD_KEY` value and the request body.
`conn.release()` and the swallowed best-effort
`UPDATE users SET last_login_at = NOW()` have no effect on the
response and leave no trace in it. -/
def loginHandler (store : LoginStore) (rawKey : Option String) (body : LoginBody) :
    ApiResponse :=
  let tenant := toCleanString body.tenant
  let email := jsToLower (toCleanString body.email)
  let password := toCleanString body.password
  if tenant = "" ∨ email = "" ∨ password = "" then
    respError 400 "Faltan campos."
  else
    match store.getConn with
    | .error e => resp500 e
    | .ok _ =>
      match store.lookupUser email tenant with
      | .error e => resp500 e
      | .ok none => respError 401 "Credenciales invalidas."
      | .ok (some user) =>
        if !isActiveStatus user.user_status || !isActiveStatus user.tenant_status then
          respError 403 "Usuario o tenant desactivado."
        else
          let stored := jsToStringOrEmpty user.password_hash
          if verifyPassword rawKey password stored then
            { status := 200, ok := true,
              user := some { id := user.id, name := user.name, email := user.email,
                             role := user.role, tenant_id := user.tenant_id } }
          else respError 401 "Credenciales invalidas."

/-! ## The register handler (`app.post("/auth/register")`) -/

/-- `phone || null` / `countryCode || null`. -/
def orNull (s : String) : JsVal :=
  if s = "" then .nul else .str s

/-- The parameter list of the `i`-th INSERT variant, in source order
(most complete first, minimal last); `status` and `role` are the
constants `"activo"` and `"user"`. -/
def insertParams (i : Nat) (tenant name email phone countryCode passwordHash : String) :
    List JsVal :=
  match i with
  | 0 => [.str tenant, .str name, .str email, orNull phone, orNull countryCode,
          .str passwordHash, .str "activo", .str "user"]
  | 1 => [.str tenant, .str name, .str email, orNull phone,
          .str passwordHash, .str "activo", .str "user"]
  | 2 => [.str tenant, .str name, .str email, .str passwordHash, .str "activo", .str "user"]
  | 3 => [.str tenant, .str email, .str passwordHash, .str "activo", .str "user"]
  | _ => []

/-- The `for (const insert of inserts)` loop: try each variant in
order; success sets `inserted = true` and breaks; a column-not-found
error falls through to the next variant; any other error is rethrown.
`.ok b` is normal loop exit with `inserted = b`. -/
def runInserts (ins : Nat → Except DbError Unit) : List Nat → Except DbError Bool
  | [] => .ok false
  | i :: rest =>
    match ins i with
    | .ok _ => .ok true
    | .error e => if isBadFieldError e then runInserts ins rest else .error e

/-- The `/auth/register` handler from index.ts as a total function of
the storage interface, the `PASSWORD_KEY` value, the 12 random IV
bytes drawn for the encryption, and the request body. -/
def registerHandler (store : RegisterStore) (rawKey : Option String) (iv : List Nat)
    (body : RegisterBody) : ApiResponse :=
  let tenant := toCleanString body.tenant
  let name := toCleanString body.name
  let email := jsToLower (toCleanString body.email)
  let phone := toCleanString body.phone
  let countryCode := toCleanString body.country_code
  let password := toCleanString body.password
  if tenant = "" ∨ name = "" ∨ email = "" ∨ password = "" then
    respError 400 "Faltan campos."
  else if !email.data.contains '@' then
    respError 400 "Email invalido."
  else
    match store.getConn with
    | .error e => resp500 e
    | .ok _ =>
      match store.lookupTenant tenant with
      | .error e => resp500 e
      | .ok none => respError 404 "Tenant no encontrado."
      | .ok (some tenantRow) =>
        if !isActiveStatus tenantRow.status then
          respError 403 "Tenant desactivado."
        else
          match store.lookupExistingUser tenant email with
          | .error e => resp500 e
          | .ok true => respError 409 "Usuario ya registrado."
          | .ok false =>
            match encryptPassword rawKey iv password with
            | .error e => resp500 e
            | .ok passwordHash =>
              match runInserts
                  (fun i => store.insertUser i
                    (insertParams i tenant name email phone countryCode passwordHash))
                  [0, 1, 2, 3] with
              | .error e => resp500 e
              | .ok false => resp500 { code := none, message := some "No se pudo insertar el usuario." }
              | .ok true => { status := 200, ok := true }

/-! ## Concrete test fixtures -/

/-- A concrete valid `PASSWORD_KEY`: 64 hex characters, deriving the
all-zero 32-byte key. -/
def zeroKey64 : String :=
  "0000000000000000000000000000000000000000000000000000000000000000"

/-- A concrete draw of `crypto.randomBytes(12)`. -/
def iv12 : List Nat := [0, 1, 2, 3, 4, 5, 6, 7, 8, 9, 10, 11]

/-! ## Supporting lemmas: UTF-8 -/

theorem char_toNat_lt (c : Char) : c.toNat < 1114112 := by
  have h := c.valid
  rcases h with h | h
  · exact Nat.lt_trans h (by norm_num)
  · exact h.2

theorem utf8EncodeChar_ne_nil (c : Char) : utf8EncodeChar c ≠ [] := by
  unfold utf8EncodeChar
  split
  · simp
  · split
    · simp
    · split <;> simp

theorem utf8EncodeChar_lt_256 (c : Char) : ∀ b ∈ utf8EncodeChar c, b < 256 := by
  have hv := char_toNat_lt c
  unfold utf8EncodeChar
  split
  · intro b hb; simp at hb; omega
  · split
    · intro b hb; simp at hb; rcases hb with h | h <;> omega
    · split
      · intro b hb; simp at hb; rcases hb with h | h | h <;> omega
      · intro b hb; simp at hb; rcases hb with h | h | h | h <;> omega

theorem utf8Assemble_one (b b1 : Nat) :
    utf8Assemble b [b1] = (b - 192) * 64 + (b1 - 128) := rfl

theorem utf8Assemble_two (b b1 b2 : Nat) :
    utf8Assemble b [b1, b2] = (b - 224) * 4096 + (b1 - 128) * 64 + (b2 - 128) := rfl

theorem utf8Assemble_three (b b1 b2 b3 : Nat) :
    utf8Assemble b [b1, b2, b3] =
      (b - 240) * 262144 + (b1 - 128) * 4096 + (b2 - 128) * 64 + (b3 - 128) := rfl

theorem utf8DecodeGo_nil (fuel : Nat) : utf8DecodeGo fuel [] = [] := by
  cases fuel <;> rfl

theorem utf8DecodeGo_cons (fuel b : Nat) (rest : List Nat) :
    utf8DecodeGo (fuel + 1) (b :: rest) =
      if rest.length < utf8ContBytes b then [Char.ofNat 65533]
      else
        Char.ofNat (utf8Assemble b (rest.take (utf8ContBytes b))) ::
          utf8DecodeGo fuel (rest.drop (utf8ContBytes b)) := rfl

theorem utf8DecodeGo_fuel (f1 : Nat) : ∀ (f2 : Nat) (l : List Nat),
    l.length ≤ f1 → l.length ≤ f2 → utf8DecodeGo f1 l = utf8DecodeGo f2 l := by
  induction f1 with
  | zero =>
    intro f2 l h1 _
    have : l = [] := List.length_eq_zero.mp (Nat.le_zero.mp h1)
    subst this
    rw [utf8DecodeGo_nil, utf8DecodeGo_nil]
  | succ f1 ih =>
    intro f2 l h1 h2
    cases l with
    | nil => rw [utf8DecodeGo_nil, utf8DecodeGo_nil]
    | cons b rest =>
      cases f2 with
      | zero => simp at h2
      | succ f2 =>
        rw [utf8DecodeGo_cons, utf8DecodeGo_cons]
        by_cases hlt : rest.length < utf8ContBytes b
        · rw [if_pos hlt, if_pos hlt]
        · rw [if_neg hlt, if_neg hlt]
          congr 1
          apply ih
          · simp only [List.length_drop]
            simp only [List.length_cons] at h1
            omega
          · simp only [List.length_drop]
            simp only [List.length_cons] at h2
            omega

theorem utf8DecodeChars_cons_exact (b : Nat) (conts rest : List Nat)
    (hk : utf8ContBytes b = conts.length) :
    utf8DecodeChars (b :: (conts ++ rest)) =
      Char.ofNat (utf8Assemble b conts) :: utf8DecodeChars rest := by
  unfold utf8DecodeChars
  simp only [List.length_cons]
  rw [utf8DecodeGo_cons]
  rw [if_neg (by rw [hk]; simp only [List.length_append]; omega)]
  rw [hk, List.take_left, List.drop_left]
  congr 1
  apply utf8DecodeGo_fuel
  · simp only [List.length_append]
    omega
  · exact Nat.le_refl _

theorem utf8DecodeChars_encodeChar (c : Char) (rest : List Nat) :
    utf8DecodeChars (utf8EncodeChar c ++ rest) = c :: utf8DecodeChars rest := by
  have hv := char_toNat_lt c
  have hofn := Char.ofNat_toNat c
  by_cases h1 : c.toNat < 128
  · have he : utf8EncodeChar c = [c.toNat] := by unfold utf8EncodeChar; simp [h1]
    rw [he]
    show utf8DecodeChars (c.toNat :: ([] ++ rest)) = _
    rw [utf8DecodeChars_cons_exact _ _ _
      (by unfold utf8ContBytes; simp [h1])]
    show Char.ofNat (utf8Assemble c.toNat []) :: _ = _
    have : utf8Assemble c.toNat [] = c.toNat := rfl
    rw [this, hofn]
  · by_cases h2 : c.toNat < 2048
    · have he : utf8EncodeChar c = [192 + c.toNat / 64, 128 + c.toNat % 64] := by
        unfold utf8EncodeChar; simp [h1, h2]
      rw [he]
      show utf8DecodeChars ((192 + c.toNat / 64) :: ([128 + c.toNat % 64] ++ rest)) = _
      rw [utf8DecodeChars_cons_exact _ _ _
        (by unfold utf8ContBytes; simp only [List.length_cons, List.length_nil]
            have ha : ¬ (192 + c.toNat / 64 < 128) := by omega
            have hb : 192 + c.toNat / 64 < 224 := by omega
            simp [ha, hb])]
      rw [utf8Assemble_one]
      have hval : (192 + c.toNat / 64 - 192) * 64 + (128 + c.toNat % 64 - 128) = c.toNat := by
        omega
      rw [hval, hofn]
    · by_cases h3 : c.toNat < 65536
      · have he : utf8EncodeChar c =
            [224 + c.toNat / 4096, 128 + (c.toNat / 64) % 64, 128 + c.toNat % 64] := by
          unfold utf8EncodeChar; simp [h1, h2, h3]
        rw [he]
        show utf8DecodeChars ((224 + c.toNat / 4096) ::
          ([128 + (c.toNat / 64) % 64, 128 + c.toNat % 64] ++ rest)) = _
        rw [utf8DecodeChars_cons_exact _ _ _
          (by unfold utf8ContBytes; simp only [List.length_cons, List.length_nil]
              have ha : ¬ (224 + c.toNat / 4096 < 128) := by omega
              have hb : ¬ (224 + c.toNat / 4096 < 224) := by omega
              have hc : 224 + c.toNat / 4096 < 240 := by omega
              simp [ha, hb, hc])]
        rw [utf8Assemble_two]
        have hval : (224 + c.toNat / 4096 - 224) * 4096 + (128 + c.toNat / 64 % 64 - 128) * 64 +
            (128 + c.toNat % 64 - 128) = c.toNat := by omega
        rw [hval, hofn]
      · have he : utf8EncodeChar c =
            [240 + c.toNat / 262144, 128 + (c.toNat / 4096) % 64, 128 + (c.toNat / 64) % 64,
             128 + c.toNat % 64] := by
          unfold utf8EncodeChar; simp [h1, h2, h3]
        rw [he]
        show utf8DecodeChars ((240 + c.toNat / 262144) ::
          ([128 + (c.toNat / 4096) % 64, 128 + (c.toNat / 64) % 64, 128 + c.toNat % 64] ++
            rest)) = _
        rw [utf8DecodeChars_cons_exact _ _ _
          (by unfold utf8ContBytes; simp only [List.length_cons, List.length_nil]
              have ha : ¬ (240 + c.toNat / 262144 < 128) := by omega
              have hb : ¬ (240 + c.toNat / 262144 < 224) := by omega
              have hc : ¬ (240 + c.toNat / 262144 < 240) := by omega
              simp [ha, hb, hc])]
        rw [utf8Assemble_three]
        have hval : (240 + c.toNat / 262144 - 240) * 262144 +
            (128 + c.toNat / 4096 % 64 - 128) * 4096 + (128 + c.toNat / 64 % 64 - 128) * 64 +
            (128 + c.toNat % 64 - 128) = c.toNat := by omega
        rw [hval, hofn]


theorem utf8DecodeChars_encode_list (l : List Char) :
    utf8DecodeChars (l.flatMap utf8EncodeChar) = l := by
  induction l with
  | nil =>
    simp only [List.flatMap_nil]
    exact utf8DecodeGo_nil _
  | cons c l ih =>
    rw [List.flatMap_cons, utf8DecodeChars_encodeChar, ih]

theorem utf8Decode_encode (s : String) : utf8Decode (utf8Encode s) = s := by
  unfold utf8Decode utf8Encode
  rw [utf8DecodeChars_encode_list]

theorem utf8Encode_inj {a b : String} (h : utf8Encode a = utf8Encode b) : a = b := by
  have := congrArg utf8Decode h
  rwa [utf8Decode_encode, utf8Decode_encode] at this

theorem utf8Encode_lt_256 (s : String) : ∀ b ∈ utf8Encode s, b < 256 := by
  intro b hb
  unfold utf8Encode at hb
  rcases List.mem_flatMap.mp hb with ⟨c, _, hbc⟩
  exact utf8EncodeChar_lt_256 c b hbc

theorem utf8Encode_ne_nil {s : String} (h : s ≠ "") : utf8Encode s ≠ [] := by
  unfold utf8Encode
  cases s with
  | mk data =>
    cases data with
    | nil => exact absurd rfl h
    | cons c l =>
      simp only [List.flatMap_cons, ne_eq, List.append_eq_nil, not_and]
      intro hc
      exact absurd hc (utf8EncodeChar_ne_nil c)

/-! ## Supporting lemmas: hex -/

theorem hexVal_hexDigit : ∀ n, n < 16 → hexVal (hexDigit n) = some n := by decide

theorem hexDigit_ne_colon : ∀ n, n < 16 → hexDigit n ≠ ':' := by decide

theorem hexDecodeChars_encode (bs : List Nat) (h : ∀ b ∈ bs, b < 256) :
    hexDecodeChars (bs.flatMap hexByteChars) = bs := by
  induction bs with
  | nil => rfl
  | cons b bs ih =>
    have hb : b < 256 := h b (List.mem_cons_self b bs)
    have hdiv : b / 16 < 16 := by omega
    have hmod : b % 16 < 16 := by omega
    rw [List.flatMap_cons]
    show hexDecodeChars (hexDigit (b / 16) :: hexDigit (b % 16) :: bs.flatMap hexByteChars) = _
    rw [hexDecodeChars]
    rw [hexVal_hexDigit _ hdiv, hexVal_hexDigit _ hmod]
    simp only
    rw [ih (fun x hx => h x (List.mem_cons_of_mem b hx))]
    congr 1
    omega

theorem hexByteChars_ne_colon (bs : List Nat) (hlt : ∀ b ∈ bs, b < 256) :
    ':' ∉ bs.flatMap hexByteChars := by
  intro hmem
  rcases List.mem_flatMap.mp hmem with ⟨b, hbmem, hb⟩
  have hb256 : b < 256 := hlt b hbmem
  have hdiv : b / 16 < 16 := by omega
  have hmod : b % 16 < 16 := by omega
  unfold hexByteChars at hb
  simp only [List.mem_cons, List.not_mem_nil, or_false] at hb
  rcases hb with h | h
  · exact hexDigit_ne_colon _ hdiv h.symm
  · exact hexDigit_ne_colon _ hmod h.symm

theorem hexEncode_data (bs : List Nat) : (hexEncode bs).data = bs.flatMap hexByteChars := rfl

theorem hexDecode_encode (bs : List Nat) (h : ∀ b ∈ bs, b < 256) :
    hexDecode (hexEncode bs) = bs := by
  unfold hexDecode
  rw [hexEncode_data, hexDecodeChars_encode bs h]

theorem hexEncode_ne_empty {bs : List Nat} (h : bs ≠ []) : hexEncode bs ≠ "" := by
  unfold hexEncode
  cases bs with
  | nil => exact absurd rfl h
  | cons b bs =>
    intro hc
    have : (String.mk ((b :: bs).flatMap hexByteChars)).data = ("" : String).data :=
      congrArg String.data hc
    simp only [List.flatMap_cons] at this
    exact absurd this (by simp [hexByteChars])

/-! ## Supporting lemmas: splitting on `:` -/

theorem splitColonChars_ne_nil (l : List Char) : splitColonChars l ≠ [] := by
  cases l with
  | nil => simp [splitColonChars]
  | cons c rest =>
    rw [splitColonChars]
    cases hs : splitColonChars rest with
    | nil => simp
    | cons w ws =>
      by_cases hc : c = ':'
      · simp [hc]
      · simp [hc]

theorem splitColonChars_no_colon (l : List Char) (h : ':' ∉ l) :
    splitColonChars l = [l] := by
  induction l with
  | nil => rfl
  | cons c rest ih =>
    have hc : c ≠ ':' := fun hne => h (hne ▸ List.mem_cons_self c rest)
    have hr : ':' ∉ rest := fun hm => h (List.mem_cons_of_mem c hm)
    rw [splitColonChars, ih hr]
    simp [hc]

theorem splitColonChars_append (a rest : List Char) (h : ':' ∉ a) :
    splitColonChars (a ++ ':' :: rest) = a :: splitColonChars rest := by
  induction a with
  | nil =>
    simp only [List.nil_append]
    rw [splitColonChars]
    cases hs : splitColonChars rest with
    | nil => exact absurd hs (splitColonChars_ne_nil rest)
    | cons w ws => simp
  | cons c a ih =>
    have hc : c ≠ ':' := fun hne => h (hne ▸ List.mem_cons_self c a)
    have ha : ':' ∉ a := fun hm => h (List.mem_cons_of_mem c hm)
    simp only [List.cons_append]
    rw [splitColonChars, ih ha]
    simp [hc]

/-! ## Supporting lemmas: the GCM model -/

theorem gcmKeystream_length (key iv : List Nat) (n : Nat) :
    (gcmKeystream key iv n).length = n := by
  unfold gcmKeystream
  simp

theorem gcmKeystream_lt_256 (key iv : List Nat) (n : Nat) :
    ∀ b ∈ gcmKeystream key iv n, b < 256 := by
  intro b hb
  unfold gcmKeystream at hb
  simp only [List.mem_map, List.mem_range] at hb
  rcases hb with ⟨i, _, hi⟩
  omega

theorem gcmTag_length (key iv ct : List Nat) : (gcmTag key iv ct).length = 16 := by
  unfold gcmTag
  simp

theorem gcmTag_lt_256 (key iv ct : List Nat) : ∀ b ∈ gcmTag key iv ct, b < 256 := by
  intro b hb
  unfold gcmTag at hb
  simp only [List.mem_map, List.mem_range] at hb
  rcases hb with ⟨i, _, hi⟩
  omega

theorem zip_xor_involutive (l ks : List Nat) (h : l.length = ks.length) :
    (((l.zip ks).map (fun p => p.1 ^^^ p.2)).zip ks).map (fun p => p.1 ^^^ p.2) = l := by
  induction l generalizing ks with
  | nil => simp
  | cons x l ih =>
    cases ks with
    | nil => simp at h
    | cons k ks =>
      simp only [List.zip_cons_cons, List.map_cons]
      rw [ih ks (by simpa using h)]
      rw [Nat.xor_assoc, Nat.xor_self, Nat.xor_zero]

theorem gcmXor_length (key iv data : List Nat) : (gcmXor key iv data).length = data.length := by
  unfold gcmXor
  rw [List.length_map, List.length_zip, gcmKeystream_length]
  omega

theorem gcmXor_involutive (key iv data : List Nat) :
    gcmXor key iv (gcmXor key iv data) = data := by
  have hlen := gcmXor_length key iv data
  unfold gcmXor at hlen ⊢
  rw [hlen]
  exact zip_xor_involutive data (gcmKeystream key iv data.length)
    (by rw [gcmKeystream_length])

theorem gcmXor_lt_256 (key iv data : List Nat) (h : ∀ b ∈ data, b < 256) :
    ∀ b ∈ gcmXor key iv data, b < 256 := by
  intro b hb
  unfold gcmXor at hb
  simp only [List.mem_map] at hb
  rcases hb with ⟨⟨x, y⟩, hmem, hxy⟩
  have hx : x ∈ data := (List.of_mem_zip hmem).1
  have hy : y ∈ gcmKeystream key iv data.length := (List.of_mem_zip hmem).2
  have hx256 : x < 256 := h x hx
  have hy256 : y < 256 := gcmKeystream_lt_256 key iv data.length y hy
  have : x ^^^ y < 2 ^ 8 := Nat.xor_lt_two_pow (by simpa using hx256) (by simpa using hy256)
  simpa using hxy ▸ this

theorem gcmXor_ne_nil (key iv : List Nat) {data : List Nat} (h : data ≠ []) :
    gcmXor key iv data ≠ [] := by
  intro hc
  have := gcmXor_length key iv data
  rw [hc] at this
  simp only [List.length_nil] at this
  exact h (List.length_eq_zero.mp this.symm)

theorem gcmOpen_gcmSeal (key iv pt : List Nat) (hiv : iv ≠ []) :
    gcmOpen key iv (gcmSeal key iv pt).2 (gcmSeal key iv pt).1 = some pt := by
  unfold gcmSeal gcmOpen
  simp only
  rw [if_neg (by simpa using hiv), if_neg (by rw [gcmTag_length]; simp), if_neg (by simp)]
  rw [gcmXor_involutive]

/-! ## Supporting lemmas: comparator and codec round-trip -/

theorem timingSafeEqualString_iff (a b : String) :
    timingSafeEqualString a b = true ↔ a = b := by
  constructor
  · intro h
    simp only [timingSafeEqualString] at h
    by_cases hl : (utf8Encode a).length = (utf8Encode b).length
    · rw [if_neg (by simp [hl])] at h
      exact utf8Encode_inj (by simpa using h)
    · rw [if_pos (by simp [hl])] at h
      cases h
  · intro h
    subst h
    simp [timingSafeEqualString]

theorem splitColon_envelope (a b c : String)
    (ha : ':' ∉ a.data) (hb : ':' ∉ b.data) (hc : ':' ∉ c.data) :
    splitColon (a ++ ":" ++ b ++ ":" ++ c) = [a, b, c] := by
  unfold splitColon
  have hdata : (a ++ ":" ++ b ++ ":" ++ c).data =
      a.data ++ ':' :: (b.data ++ ':' :: c.data) := by
    simp [String.data_append]
  rw [hdata, splitColonChars_append _ _ ha, splitColonChars_append _ _ hb,
      splitColonChars_no_colon _ hc]
  rfl

theorem encryptPassword_ok (raw : Option String) (key iv : List Nat) (p : String)
    (hkey : getAesKey raw = some key) :
    encryptPassword raw iv p = Except.ok (hexEncode iv ++ ":" ++
      hexEncode (gcmTag key iv (gcmXor key iv (utf8Encode p))) ++ ":" ++
      hexEncode (gcmXor key iv (utf8Encode p))) := by
  unfold encryptPassword
  rw [hkey]
  rfl

theorem decryptPassword_envelope (raw : Option String) (key iv : List Nat) (p : String)
    (hkey : getAesKey raw = some key) (hivne : iv ≠ []) (hivlt : ∀ b ∈ iv, b < 256)
    (hp : p ≠ "") :
    decryptPassword raw
      (hexEncode iv ++ ":" ++ hexEncode (gcmTag key iv (gcmXor key iv (utf8Encode p))) ++ ":" ++
        hexEncode (gcmXor key iv (utf8Encode p))) = some p := by
  have hptne : utf8Encode p ≠ [] := utf8Encode_ne_nil hp
  have hctne : gcmXor key iv (utf8Encode p) ≠ [] := gcmXor_ne_nil key iv hptne
  have htagne : gcmTag key iv (gcmXor key iv (utf8Encode p)) ≠ [] := by
    intro h
    have := gcmTag_length key iv (gcmXor key iv (utf8Encode p))
    rw [h] at this
    simp at this
  have hsplit := splitColon_envelope (hexEncode iv)
    (hexEncode (gcmTag key iv (gcmXor key iv (utf8Encode p))))
    (hexEncode (gcmXor key iv (utf8Encode p)))
    (by rw [hexEncode_data]; exact hexByteChars_ne_colon iv hivlt)
    (by rw [hexEncode_data]; exact hexByteChars_ne_colon _ (gcmTag_lt_256 _ _ _))
    (by
      rw [hexEncode_data]
      exact hexByteChars_ne_colon _ (gcmXor_lt_256 _ _ _ (utf8Encode_lt_256 p)))
  have hopen : gcmOpen key iv (gcmTag key iv (gcmXor key iv (utf8Encode p)))
      (gcmXor key iv (utf8Encode p)) = some (utf8Encode p) := by
    have := gcmOpen_gcmSeal key iv (utf8Encode p) hivne
    simpa [gcmSeal] using this
  simp only [decryptPassword, hsplit, List.length_cons, List.length_nil]
  rw [if_neg (by norm_num)]
  rw [if_neg (by
    push_neg
    exact ⟨hexEncode_ne_empty hivne, hexEncode_ne_empty htagne, hexEncode_ne_empty hctne⟩)]
  rw [hkey]
  simp only [hexDecode_encode iv hivlt,
    hexDecode_encode _ (gcmTag_lt_256 key iv (gcmXor key iv (utf8Encode p))),
    hexDecode_encode _ (gcmXor_lt_256 key iv (utf8Encode p) (utf8Encode_lt_256 p)),
    hopen]
  rw [utf8Decode_encode]

/-! ## Claim C1: encrypt/decrypt round-trip -/

/-- C1 (amended): for every non-empty plaintext `p`, every configured
key accepted by `getAesKey`, and every 12-byte IV draw, decrypting the
envelope produced by `encryptPassword` under the same key yields
exactly `p`. (The claim's unrestricted "every plaintext" fails at
`p = ""`: the empty ciphertext hex field trips `decryptPassword`'s
non-empty-field check; see the counterexample.) -/
theorem encrypt_decrypt_roundtrip (raw : Option String) (key iv : List Nat) (p : String)
    (hkey : getAesKey raw = some key) (hiv : iv.length = 12) (hivlt : ∀ b ∈ iv, b < 256)
    (hp : p ≠ "") :
    ∃ env, encryptPassword raw iv p = Except.ok env ∧ decryptPassword raw env = some p := by
  have hivne : iv ≠ [] := by
    intro h
    rw [h] at hiv
    simp at hiv
  exact ⟨_, encryptPassword_ok raw key iv p hkey,
    decryptPassword_envelope raw key iv p hkey hivne hivlt hp⟩

/-- C1 witness: the round-trip at a concrete key, IV and plaintext. -/
theorem encrypt_decrypt_roundtrip_witness :
    ∃ env, encryptPassword (some zeroKey64) iv12 "hunter2" = Except.ok env ∧
      decryptPassword (some zeroKey64) env = some "hunter2" :=
  encrypt_decrypt_roundtrip (some zeroKey64) (List.replicate 32 0) iv12 "hunter2"
    (by decide) (by decide) (by decide) (by decide)

/-- C1 counterexample: at the empty plaintext the ciphertext hex field
of the envelope is empty, so decryption of a freshly produced envelope
returns `none`, not `some ""` — the claim's universal quantification
over all plaintexts fails. -/
theorem roundtrip_fails_on_empty_plaintext :
    encryptPassword (some zeroKey64) iv12 "" =
      Except.ok "000102030405060708090a0b:8ff051b21374d53697f859ba1b7cdd3e:" ∧
    decryptPassword (some zeroKey64)
      "000102030405060708090a0b:8ff051b21374d53697f859ba1b7cdd3e:" = none := by
  exact ⟨rfl, rfl⟩

/-! ## Claim C2: legacy plaintext verification -/

/-- C2 (amended): for every non-empty stored credential containing no
colon character, `verifyPassword` succeeds exactly on byte-for-byte
equality of the submitted password with the stored string. (The
claim's wider class "not a colon-delimited 3-part envelope" fails:
a stored string like "a:b" contains a colon without being a 3-part
envelope, and is routed to the decryption path, never the direct
comparison; see the counterexample.) -/
theorem verify_legacy_plaintext_iff (rawKey : Option String) (p s : String)
    (hne : s ≠ "") (hnc : s.data.contains ':' = false) :
    (verifyPassword rawKey p s = true ↔ p = s) := by
  unfold verifyPassword
  rw [if_neg hne, if_neg (by rw [hnc]; decide)]
  exact timingSafeEqualString_iff p s

/-- C2 witness: concrete legacy comparison, equal and unequal. -/
theorem verify_legacy_plaintext_iff_witness :
    (verifyPassword none "swordfish" "swordfish" = true ↔ "swordfish" = "swordfish") :=
  verify_legacy_plaintext_iff none "swordfish" "swordfish" (by decide) (by decide)

/-- C2 counterexample: the stored credential "a:b" is not a 3-part
envelope (it splits into 2 fields), so the claim calls it legacy
plaintext and demands `verify("a:b", "a:b") = true`; the code routes
any stored string containing a colon through decryption, which fails,
so the result is `false`. -/
theorem verify_colon_legacy_counterexample :
    verifyPassword (some zeroKey64) "a:b" "a:b" = false ∧
    (splitColon "a:b").length ≠ 3 ∧ ("a:b" : String) = "a:b" := by
  exact ⟨rfl, by decide, rfl⟩

/-! ## Claim C3: totality of decryption -/

/-- C3 (amended): `decryptPassword` is total (it is a Lean function
into `Option`, every Node-throwing condition inside the source's
try/catch is mapped to `none`), and returns `none` whenever the
payload does not split into exactly 3 fields, some field is empty, no
valid key is configured, or GCM authentication fails on the
(leniently) hex-decoded fields. (The claim's "contains invalid hex"
clause is dropped: Node's hex decoder silently truncates at the first
invalid character, so a payload with trailing non-hex garbage can
still authenticate and decrypt; see the counterexample.) -/
theorem decrypt_total_failure_cases (raw : Option String) (payload : String) :
    ((splitColon payload).length ≠ 3 → decryptPassword raw payload = none) ∧
    (∀ a b c, splitColon payload = [a, b, c] → (a = "" ∨ b = "" ∨ c = "") →
      decryptPassword raw payload = none) ∧
    (getAesKey raw = none → decryptPassword raw payload = none) ∧
    (∀ a b c key, splitColon payload = [a, b, c] → getAesKey raw = some key →
      gcmOpen key (hexDecode a) (hexDecode b) (hexDecode c) = none →
      decryptPassword raw payload = none) := by
  refine ⟨?_, ?_, ?_, ?_⟩
  · intro h
    simp only [decryptPassword]
    rw [if_pos h]
  · intro a b c hsp hempty
    simp only [decryptPassword, hsp, List.length_cons, List.length_nil]
    rw [if_neg (by norm_num), if_pos hempty]
  · intro hk
    by_cases h3 : (splitColon payload).length = 3
    · obtain ⟨a, b, c, hsp⟩ := List.length_eq_three.mp h3
      simp only [decryptPassword, hsp, List.length_cons, List.length_nil]
      rw [if_neg (by norm_num)]
      by_cases hempty : a = "" ∨ b = "" ∨ c = ""
      · rw [if_pos hempty]
      · rw [if_neg hempty, hk]
    · simp only [decryptPassword]
      rw [if_pos h3]
  · intro a b c key hsp hkey hopen
    simp only [decryptPassword, hsp, List.length_cons, List.length_nil]
    rw [if_neg (by norm_num)]
    by_cases hempty : a = "" ∨ b = "" ∨ c = ""
    · rw [if_pos hempty]
    · rw [if_neg hempty, hkey]
      simp only [hopen]

/-- C3 witness: each failure class at a concrete input — wrong field
count, empty field, missing key, and failed tag verification. -/
theorem decrypt_total_failure_cases_witness :
    decryptPassword (some zeroKey64) "nocolons" = none ∧
    decryptPassword (some zeroKey64) "a::c" = none ∧
    decryptPassword none "a:b:c" = none ∧
    decryptPassword (some zeroKey64) "aa:bb:cc" = none := by
  refine ⟨?_, ?_, ?_, ?_⟩
  · exact (decrypt_total_failure_cases (some zeroKey64) "nocolons").1 (by decide)
  · exact (decrypt_total_failure_cases (some zeroKey64) "a::c").2.1 "a" "" "c" (by decide)
      (by simp)
  · exact (decrypt_total_failure_cases none "a:b:c").2.2.1 (by decide)
  · exact (decrypt_total_failure_cases (some zeroKey64) "aa:bb:cc").2.2.2 "aa" "bb" "cc"
      (List.replicate 32 0) (by decide) (by decide) (by decide)

/-- C3 counterexample: a payload whose ciphertext field contains the
invalid hex character `z` still decrypts successfully — Node's hex
decoding truncates at the invalid character, so the claim's "returns
null on invalid hex" is false. -/
theorem decrypt_accepts_invalid_hex :
    decryptPassword (some zeroKey64)
      "000102030405060708090a0b:47a8096acb2c8dee4fb01172d33495f6:b7z" = some "x" ∧
    splitColon "000102030405060708090a0b:47a8096acb2c8dee4fb01172d33495f6:b7z" =
      ["000102030405060708090a0b", "47a8096acb2c8dee4fb01172d33495f6", "b7z"] ∧
    hexVal 'z' = none := by
  exact ⟨rfl, by decide, by decide⟩

/-! ## Claim C4: no-row and wrong-password logins are indistinguishable -/

/-- C4: for two well-formed login requests — one naming a
(tenant, email) pair with no matching row, the other naming an
existing user with active statuses but a wrong password — the
responses are identical: status 401 with the same
invalid-credentials body. -/
theorem login_enumeration_indistinguishable (s1 s2 : LoginStore) (k1 k2 : Option String)
    (b1 b2 : LoginBody) (u : UserRow)
    (hv1 : ¬(toCleanString b1.tenant = "" ∨ jsToLower (toCleanString b1.email) = "" ∨
      toCleanString b1.password = ""))
    (hv2 : ¬(toCleanString b2.tenant = "" ∨ jsToLower (toCleanString b2.email) = "" ∨
      toCleanString b2.password = ""))
    (hc1 : s1.getConn = .ok ()) (hc2 : s2.getConn = .ok ())
    (h1 : s1.lookupUser (jsToLower (toCleanString b1.email)) (toCleanString b1.tenant) =
      .ok none)
    (h2 : s2.lookupUser (jsToLower (toCleanString b2.email)) (toCleanString b2.tenant) =
      .ok (some u))
    (hu : isActiveStatus u.user_status = true) (ht : isActiveStatus u.tenant_status = true)
    (hw : verifyPassword k2 (toCleanString b2.password) (jsToStringOrEmpty u.password_hash) =
      false) :
    loginHandler s1 k1 b1 = loginHandler s2 k2 b2 ∧
    loginHandler s1 k1 b1 = respError 401 "Credenciales invalidas." := by
  have e1 : loginHandler s1 k1 b1 = respError 401 "Credenciales invalidas." := by
    simp only [loginHandler, if_neg hv1, hc1, h1]
  have e2 : loginHandler s2 k2 b2 = respError 401 "Credenciales invalidas." := by
    simp only [loginHandler, if_neg hv2, hc2, h2, hu, ht, hw, Bool.not_true, Bool.or_self,
      Bool.false_eq_true, if_false]
  exact ⟨e1.trans e2.symm, e1⟩

/-- C4 witness: concrete unknown-pair and wrong-password logins. -/
theorem login_enumeration_indistinguishable_witness :
    loginHandler
        { getConn := .ok (), lookupUser := fun _ _ => .ok none,
          touchLastLogin := fun _ => .ok () } none
        { tenant := .str "t1", email := .str "ghost@x.com", password := .str "pw" } =
      loginHandler
        { getConn := .ok (),
          lookupUser := fun _ _ => .ok (some
            { id := .num 7, name := .str "Ana", email := .str "ana@x.com", role := .str "user",
              user_status := .str "activo", password_hash := .str "secret",
              tenant_id := .str "t1", tenant_status := .str "activo" }),
          touchLastLogin := fun _ => .ok () } none
        { tenant := .str "t1", email := .str "ana@x.com", password := .str "wrong" } ∧
    loginHandler
        { getConn := .ok (), lookupUser := fun _ _ => .ok none,
          touchLastLogin := fun _ => .ok () } none
        { tenant := .str "t1", email := .str "ghost@x.com", password := .str "pw" } =
      respError 401 "Credenciales invalidas." :=
  login_enumeration_indistinguishable _ _ none none _ _
    { id := .num 7, name := .str "Ana", email := .str "ana@x.com", role := .str "user",
      user_status := .str "activo", password_hash := .str "secret",
      tenant_id := .str "t1", tenant_status := .str "activo" }
    (by decide) (by decide) rfl rfl rfl rfl (by decide) (by decide) (by decide)

/-! ## Claim C5: inactive tenant or user beats a correct password -/

/-- C5: when the lookup finds a user, the password is correct, but the
user's or the tenant's status is not classified active by the status
gate, the response is the 403 disabled response, not 401 — the status
gate runs before password verification. -/
theorem login_inactive_gives_403 (s : LoginStore) (k : Option String) (b : LoginBody)
    (u : UserRow)
    (hv : ¬(toCleanString b.tenant = "" ∨ jsToLower (toCleanString b.email) = "" ∨
      toCleanString b.password = ""))
    (hc : s.getConn = .ok ())
    (hl : s.lookupUser (jsToLower (toCleanString b.email)) (toCleanString b.tenant) =
      .ok (some u))
    (hinact : isActiveStatus u.user_status = false ∨ isActiveStatus u.tenant_status = false)
    (hpw : verifyPassword k (toCleanString b.password) (jsToStringOrEmpty u.password_hash) =
      true) :
    loginHandler s k b = respError 403 "Usuario o tenant desactivado." ∧
    (loginHandler s k b).status ≠ 401 := by
  have e : loginHandler s k b = respError 403 "Usuario o tenant desactivado." := by
    rcases hinact with h | h
    · simp only [loginHandler, if_neg hv, hc, hl, h, Bool.not_false, Bool.true_or, if_true]
    · simp only [loginHandler, if_neg hv, hc, hl, h, Bool.not_false, Bool.or_true, if_true]
  exact ⟨e, by rw [e]; decide⟩

/-- C5 witness: a correct password against a suspended user. -/
theorem login_inactive_gives_403_witness :
    loginHandler
        { getConn := .ok (),
          lookupUser := fun _ _ => .ok (some
            { id := .num 7, name := .str "Ana", email := .str "ana@x.com", role := .str "user",
              user_status := .str "suspended", password_hash := .str "pw",
              tenant_id := .str "t1", tenant_status := .str "activo" }),
          touchLastLogin := fun _ => .ok () } none
        { tenant := .str "t1", email := .str "ana@x.com", password := .str "pw" } =
      respError 403 "Usuario o tenant desactivado." :=
  (login_inactive_gives_403 _ none _
    { id := .num 7, name := .str "Ana", email := .str "ana@x.com", role := .str "user",
      user_status := .str "suspended", password_hash := .str "pw",
      tenant_id := .str "t1", tenant_status := .str "activo" }
    (by decide) rfl rfl (Or.inl (by decide)) (by decide)).1

/-! ## Claim C7: validation failures never touch storage -/

/-- C7: a login request with a blank tenant, email or password, and a
register request with a missing required field or an email without
`@`, are answered 400 identically for every storage interface, every
key configuration and every IV draw — the response is computed before
any storage operation, so no connection is acquired and no query
runs. -/
theorem validation_rejects_before_storage :
    (∀ (s : LoginStore) (k : Option String) (b : LoginBody),
      (toCleanString b.tenant = "" ∨ jsToLower (toCleanString b.email) = "" ∨
        toCleanString b.password = "") →
      loginHandler s k b = respError 400 "Faltan campos.") ∧
    (∀ (s : RegisterStore) (k : Option String) (iv : List Nat) (b : RegisterBody),
      (toCleanString b.tenant = "" ∨ toCleanString b.name = "" ∨
        jsToLower (toCleanString b.email) = "" ∨ toCleanString b.password = "") →
      registerHandler s k iv b = respError 400 "Faltan campos.") ∧
    (∀ (s : RegisterStore) (k : Option String) (iv : List Nat) (b : RegisterBody),
      ¬(toCleanString b.tenant = "" ∨ toCleanString b.name = "" ∨
        jsToLower (toCleanString b.email) = "" ∨ toCleanString b.password = "") →
      (jsToLower (toCleanString b.email)).data.contains '@' = false →
      registerHandler s k iv b = respError 400 "Email invalido.") := by
  refine ⟨?_, ?_, ?_⟩
  · intro s k b h
    simp only [loginHandler, if_pos h]
  · intro s k iv b h
    simp only [registerHandler, if_pos h]
  · intro s k iv b h hat
    simp only [registerHandler, if_neg h, hat, Bool.not_false, if_true]

/-- C7 witness: a blank login password, a register body missing its
name, and a register email without `@`, each against a store whose
operations are all failures — the 400 response shows none of them was
consulted. -/
theorem validation_rejects_before_storage_witness :
    loginHandler
        { getConn := .error { code := none, message := some "conn down" },
          lookupUser := fun _ _ => .error { code := none, message := some "boom" },
          touchLastLogin := fun _ => .error { code := none, message := some "boom" } }
        none { tenant := .str "t", email := .str "a@b", password := .str "   " } =
      respError 400 "Faltan campos." ∧
    registerHandler
        { getConn := .error { code := none, message := some "conn down" },
          lookupTenant := fun _ => .error { code := none, message := some "boom" },
          lookupExistingUser := fun _ _ => .error { code := none, message := some "boom" },
          insertUser := fun _ _ => .error { code := none, message := some "boom" } }
        none []
        { tenant := .str "t", name := .num 3, email := .str "a@b", phone := .undef,
          country_code := .undef, password := .str "pw" } =
      respError 400 "Faltan campos." ∧
    registerHandler
        { getConn := .error { code := none, message := some "conn down" },
          lookupTenant := fun _ => .error { code := none, message := some "boom" },
          lookupExistingUser := fun _ _ => .error { code := none, message := some "boom" },
          insertUser := fun _ _ => .error { code := none, message := some "boom" } }
        none []
        { tenant := .str "t", name := .str "n", email := .str "nodomain", phone := .undef,
          country_code := .undef, password := .str "pw" } =
      respError 400 "Email invalido." :=
  ⟨validation_rejects_before_storage.1 _ none _ (Or.inr (Or.inr (by decide))),
   validation_rejects_before_storage.2.1 _ none [] _ (Or.inr (Or.inl (by decide))),
   validation_rejects_before_storage.2.2 _ none [] _ (by decide) (by decide)⟩

/-! ## Supporting lemmas: the insert loop and the register handler -/

theorem runInserts_nil (ins : Nat → Except DbError Unit) : runInserts ins [] = .ok false := rfl

theorem runInserts_cons_ok (ins : Nat → Except DbError Unit) (i : Nat) (rest : List Nat)
    (h : ins i = .ok ()) : runInserts ins (i :: rest) = .ok true := by
  unfold runInserts
  rw [h]

theorem runInserts_cons_badfield (ins : Nat → Except DbError Unit) (i : Nat) (rest : List Nat)
    (e : DbError) (h : ins i = .error e) (hbf : isBadFieldError e = true) :
    runInserts ins (i :: rest) = runInserts ins rest := by
  unfold runInserts
  rw [h]
  simp only [hbf, if_true]
  cases rest <;> rfl

theorem runInserts_cons_fatal (ins : Nat → Except DbError Unit) (i : Nat) (rest : List Nat)
    (e : DbError) (h : ins i = .error e) (hbf : isBadFieldError e = false) :
    runInserts ins (i :: rest) = .error e := by
  unfold runInserts
  rw [h]
  simp [hbf]

theorem runInserts_all_badfield (ins : Nat → Except DbError Unit) (l : List Nat)
    (h : ∀ i ∈ l, ∃ e, ins i = .error e ∧ isBadFieldError e = true) :
    runInserts ins l = .ok false := by
  induction l with
  | nil => rfl
  | cons i rest ih =>
    obtain ⟨e, he, hbf⟩ := h i (List.mem_cons_self i rest)
    rw [runInserts_cons_badfield ins i rest e he hbf]
    exact ih (fun j hj => h j (List.mem_cons_of_mem i hj))

theorem runInserts_ok_exists (ins : Nat → Except DbError Unit) (l : List Nat)
    (h : runInserts ins l = .ok true) : ∃ i ∈ l, ins i = .ok () := by
  induction l with
  | nil => simp [runInserts_nil] at h
  | cons i rest ih =>
    cases hins : ins i with
    | ok u =>
      cases u
      exact ⟨i, List.mem_cons_self i rest, hins⟩
    | error e =>
      cases hbf : isBadFieldError e with
      | true =>
        rw [runInserts_cons_badfield ins i rest e hins hbf] at h
        obtain ⟨j, hj, hok⟩ := ih h
        exact ⟨j, List.mem_cons_of_mem i hj, hok⟩
      | false =>
        rw [runInserts_cons_fatal ins i rest e hins hbf] at h
        cases h

theorem encryptPassword_error (raw : Option String) (iv : List Nat) (p : String)
    (h : getAesKey raw = none) :
    encryptPassword raw iv p =
      .error { code := none, message := some "PASSWORD_KEY no configurado o invalido." } := by
  unfold encryptPassword
  rw [h]

theorem insertParams_status_role (i : Nat) (hi : i < 4) (t n e p c h : String) :
    ∃ l, insertParams i t n e p c h = l ++ [JsVal.str "activo", JsVal.str "user"] := by
  interval_cases i
  · exact ⟨[.str t, .str n, .str e, orNull p, orNull c, .str h], rfl⟩
  · exact ⟨[.str t, .str n, .str e, orNull p, .str h], rfl⟩
  · exact ⟨[.str t, .str n, .str e, .str h], rfl⟩
  · exact ⟨[.str t, .str e, .str h], rfl⟩

theorem registerHandler_ok_insert (s : RegisterStore) (k : Option String) (iv : List Nat)
    (b : RegisterBody) (h : (registerHandler s k iv b).ok = true) :
    ∃ i hash, i < 4 ∧ encryptPassword k iv (toCleanString b.password) = .ok hash ∧
      s.insertUser i (insertParams i (toCleanString b.tenant) (toCleanString b.name)
        (jsToLower (toCleanString b.email)) (toCleanString b.phone)
        (toCleanString b.country_code) hash) = .ok () := by
  simp only [registerHandler] at h
  split at h
  · simp [respError] at h
  split at h
  · simp [respError] at h
  split at h
  · simp [resp500, respError] at h
  split at h
  · simp [resp500, respError] at h
  · simp [respError] at h
  split at h
  · simp [respError] at h
  split at h
  · simp [resp500, respError] at h
  · simp [respError] at h
  split at h
  · simp [resp500, respError] at h
  rename_i hash hhash
  split at h
  · simp [resp500, respError] at h
  · simp [resp500, respError] at h
  rename_i hrun
  obtain ⟨i, hmem, hok⟩ := runInserts_ok_exists _ _ hrun
  refine ⟨i, hash, ?_, hhash, hok⟩
  simp only [List.mem_cons, List.not_mem_nil, or_false] at hmem
  rcases hmem with rfl | rfl | rfl | rfl <;> omega

/-! ## Claim C6: the schema-adaptive insert fallback -/

/-- C6: the insert loop moves to the next variant exactly on a
column-not-found error (`ER_BAD_FIELD_ERROR` code or an
"Unknown column" message), aborts immediately propagating any other
error, stops at the first success, and — when all four variants fail
with column-not-found — the register operation answers the
persistence-failure 500 and reports no success. -/
theorem register_insert_variant_fallback (ins : Nat → Except DbError Unit) :
    (∀ i rest e, ins i = .error e → isBadFieldError e = true →
      runInserts ins (i :: rest) = runInserts ins rest) ∧
    (∀ i rest e, ins i = .error e → isBadFieldError e = false →
      runInserts ins (i :: rest) = .error e) ∧
    (∀ i rest, ins i = .ok () → runInserts ins (i :: rest) = .ok true) ∧
    ((∀ i ∈ [0, 1, 2, 3], ∃ e, ins i = .error e ∧ isBadFieldError e = true) →
      runInserts ins [0, 1, 2, 3] = .ok false) ∧
    (∀ (s : RegisterStore) (k : Option String) (iv : List Nat) (b : RegisterBody)
        (trow : TenantRow) (hash : String),
      ¬(toCleanString b.tenant = "" ∨ toCleanString b.name = "" ∨
        jsToLower (toCleanString b.email) = "" ∨ toCleanString b.password = "") →
      (jsToLower (toCleanString b.email)).data.contains '@' = true →
      s.getConn = .ok () →
      s.lookupTenant (toCleanString b.tenant) = .ok (some trow) →
      isActiveStatus trow.status = true →
      s.lookupExistingUser (toCleanString b.tenant) (jsToLower (toCleanString b.email)) =
        .ok false →
      encryptPassword k iv (toCleanString b.password) = .ok hash →
      (∀ i ∈ [0, 1, 2, 3], ∃ e,
        s.insertUser i (insertParams i (toCleanString b.tenant) (toCleanString b.name)
          (jsToLower (toCleanString b.email)) (toCleanString b.phone)
          (toCleanString b.country_code) hash) = .error e ∧ isBadFieldError e = true) →
      registerHandler s k iv b = respError 500 "No se pudo insertar el usuario." ∧
        (registerHandler s k iv b).ok = false) := by
  refine ⟨fun i rest e he hbf => runInserts_cons_badfield ins i rest e he hbf,
    fun i rest e he hbf => runInserts_cons_fatal ins i rest e he hbf,
    fun i rest he => runInserts_cons_ok ins i rest he,
    fun hall => runInserts_all_badfield ins _ hall, ?_⟩
  intro s k iv b trow hash hv hat hconn htenant hact hdup hhash hall
  have hrun : runInserts (fun i => s.insertUser i (insertParams i (toCleanString b.tenant)
      (toCleanString b.name) (jsToLower (toCleanString b.email)) (toCleanString b.phone)
      (toCleanString b.country_code) hash)) [0, 1, 2, 3] = .ok false :=
    runInserts_all_badfield _ _ hall
  have e : registerHandler s k iv b =
      resp500 { code := none, message := some "No se pudo insertar el usuario." } := by
    simp only [registerHandler, if_neg hv, hat, Bool.not_true, Bool.false_eq_true, if_false,
      hconn, htenant, hact, hdup, hhash, hrun]
  exact ⟨by rw [e]; decide, by rw [e]; decide⟩

/-- C6 witness: each loop behavior at concrete stores — fallback on a
column-not-found error, immediate abort on a connectivity error, stop
at the first success, and the 500 persistence failure when every
variant reports column-not-found. -/
theorem register_insert_variant_fallback_witness :
    runInserts (fun i => if i = 0 then .error
        { code := some "ER_BAD_FIELD_ERROR", message := none } else .ok ()) (0 :: [1]) =
      runInserts (fun i => if i = 0 then .error
        { code := some "ER_BAD_FIELD_ERROR", message := none } else .ok ()) [1] ∧
    runInserts (fun _ => .error { code := none, message := some "Connection lost" })
      (0 :: [1, 2, 3]) = .error { code := none, message := some "Connection lost" } ∧
    runInserts (fun _ => .ok ()) (0 :: [1, 2, 3]) = .ok true ∧
    runInserts (fun _ => .error { code := some "ER_BAD_FIELD_ERROR", message := none })
      [0, 1, 2, 3] = .ok false ∧
    (registerHandler
        { getConn := .ok (),
          lookupTenant := fun _ => .ok (some { id := .str "t1", status := .str "activo" }),
          lookupExistingUser := fun _ _ => .ok false,
          insertUser := fun _ _ =>
            .error { code := some "ER_BAD_FIELD_ERROR", message := none } }
        (some zeroKey64) iv12
        { tenant := .str "t1", name := .str "Ana", email := .str "ana@x.com", phone := .undef,
          country_code := .undef, password := .str "pw" } =
      respError 500 "No se pudo insertar el usuario." ∧
      (registerHandler
        { getConn := .ok (),
          lookupTenant := fun _ => .ok (some { id := .str "t1", status := .str "activo" }),
          lookupExistingUser := fun _ _ => .ok false,
          insertUser := fun _ _ =>
            .error { code := some "ER_BAD_FIELD_ERROR", message := none } }
        (some zeroKey64) iv12
        { tenant := .str "t1", name := .str "Ana", email := .str "ana@x.com", phone := .undef,
          country_code := .undef, password := .str "pw" }).ok = false) := by
  refine ⟨?_, ?_, ?_, ?_, ?_⟩
  · exact (register_insert_variant_fallback _).1 0 [1]
      { code := some "ER_BAD_FIELD_ERROR", message := none } rfl (by decide)
  · exact (register_insert_variant_fallback _).2.1 0 [1, 2, 3]
      { code := none, message := some "Connection lost" } rfl (by decide)
  · exact (register_insert_variant_fallback _).2.2.1 0 [1, 2, 3] rfl
  · exact (register_insert_variant_fallback _).2.2.2.1
      (fun i _ => ⟨{ code := some "ER_BAD_FIELD_ERROR", message := none }, rfl, by decide⟩)
  · exact (register_insert_variant_fallback (fun _ => Except.ok ())).2.2.2.2 _
      (some zeroKey64) iv12 _
      { id := .str "t1", status := .str "activo" }
      "000102030405060708090a0b:0d6ecf3091f253b41576d73899fa5bbc:bfbd"
      (by decide) (by decide) rfl rfl (by decide) rfl rfl
      (fun i _ => ⟨{ code := some "ER_BAD_FIELD_ERROR", message := none }, rfl, by decide⟩)

/-! ## Claim C8: internal failures and the 500 response -/

/-- C8 (amended): configuration errors and non-tolerated storage
errors surface as HTTP 500, but the `error` field carries the
underlying error's own message whenever that message is non-empty —
`e?.message || "Error interno."` — so internal detail is leaked, not
collapsed; the generic "Error interno." appears only when the
underlying message is absent or empty. -/
theorem internal_errors_surface_message :
    (∀ (s : LoginStore) (k : Option String) (b : LoginBody) (e : DbError),
      ¬(toCleanString b.tenant = "" ∨ jsToLower (toCleanString b.email) = "" ∨
        toCleanString b.password = "") →
      s.getConn = .ok () →
      s.lookupUser (jsToLower (toCleanString b.email)) (toCleanString b.tenant) = .error e →
      loginHandler s k b = respError 500 (errMsg e)) ∧
    (∀ (s : RegisterStore) (k : Option String) (iv : List Nat) (b : RegisterBody)
        (trow : TenantRow),
      ¬(toCleanString b.tenant = "" ∨ toCleanString b.name = "" ∨
        jsToLower (toCleanString b.email) = "" ∨ toCleanString b.password = "") →
      (jsToLower (toCleanString b.email)).data.contains '@' = true →
      s.getConn = .ok () →
      s.lookupTenant (toCleanString b.tenant) = .ok (some trow) →
      isActiveStatus trow.status = true →
      s.lookupExistingUser (toCleanString b.tenant) (jsToLower (toCleanString b.email)) =
        .ok false →
      getAesKey k = none →
      registerHandler s k iv b = respError 500 "PASSWORD_KEY no configurado o invalido.") ∧
    (∀ (s : RegisterStore) (k : Option String) (iv : List Nat) (b : RegisterBody)
        (trow : TenantRow) (hash : String) (e : DbError),
      ¬(toCleanString b.tenant = "" ∨ toCleanString b.name = "" ∨
        jsToLower (toCleanString b.email) = "" ∨ toCleanString b.password = "") →
      (jsToLower (toCleanString b.email)).data.contains '@' = true →
      s.getConn = .ok () →
      s.lookupTenant (toCleanString b.tenant) = .ok (some trow) →
      isActiveStatus trow.status = true →
      s.lookupExistingUser (toCleanString b.tenant) (jsToLower (toCleanString b.email)) =
        .ok false →
      encryptPassword k iv (toCleanString b.password) = .ok hash →
      runInserts (fun i => s.insertUser i (insertParams i (toCleanString b.tenant)
        (toCleanString b.name) (jsToLower (toCleanString b.email)) (toCleanString b.phone)
        (toCleanString b.country_code) hash)) [0, 1, 2, 3] = .error e →
      registerHandler s k iv b = respError 500 (errMsg e)) := by
  refine ⟨?_, ?_, ?_⟩
  · intro s k b e hv hconn hlook
    simp only [loginHandler, if_neg hv, hconn, hlook]
    rfl
  · intro s k iv b trow hv hat hconn htenant hact hdup hkey
    simp only [registerHandler, if_neg hv, hat, Bool.not_true, Bool.false_eq_true, if_false,
      hconn, htenant, hact, hdup, encryptPassword_error k iv _ hkey]
    rfl
  · intro s k iv b trow hash e hv hat hconn htenant hact hdup hhash hrun
    simp only [registerHandler, if_neg hv, hat, Bool.not_true, Bool.false_eq_true, if_false,
      hconn, htenant, hact, hdup, hhash, hrun]
    rfl

/-- C8 witness: a lookup failure with a driver message, a missing
cipher key, and a fatal insert error, each surfacing as a 500 whose
error field is the underlying message. -/
theorem internal_errors_surface_message_witness :
    loginHandler
        { getConn := .ok (),
          lookupUser := fun _ _ => .error { code := none, message := some "Table users missing" },
          touchLastLogin := fun _ => .ok () } none
        { tenant := .str "t1", email := .str "ana@x.com", password := .str "pw" } =
      respError 500 (errMsg { code := none, message := some "Table users missing" }) ∧
    registerHandler
        { getConn := .ok (),
          lookupTenant := fun _ => .ok (some { id := .str "t1", status := .str "activo" }),
          lookupExistingUser := fun _ _ => .ok false, insertUser := fun _ _ => .ok () }
        none iv12
        { tenant := .str "t1", name := .str "Ana", email := .str "ana@x.com", phone := .undef,
          country_code := .undef, password := .str "pw" } =
      respError 500 "PASSWORD_KEY no configurado o invalido." ∧
    registerHandler
        { getConn := .ok (),
          lookupTenant := fun _ => .ok (some { id := .str "t1", status := .str "activo" }),
          lookupExistingUser := fun _ _ => .ok false,
          insertUser := fun _ _ =>
            .error { code := some "ER_DUP_ENTRY", message := some "Duplicate entry t1 ana" } }
        (some zeroKey64) iv12
        { tenant := .str "t1", name := .str "Ana", email := .str "ana@x.com", phone := .undef,
          country_code := .undef, password := .str "pw" } =
      respError 500
        (errMsg { code := some "ER_DUP_ENTRY", message := some "Duplicate entry t1 ana" }) := by
  refine ⟨?_, ?_, ?_⟩
  · exact internal_errors_surface_message.1 _ none _
      { code := none, message := some "Table users missing" } (by decide) rfl rfl
  · exact internal_errors_surface_message.2.1 _ none iv12 _
      { id := .str "t1", status := .str "activo" }
      (by decide) (by decide) rfl rfl (by decide) rfl rfl
  · exact internal_errors_surface_message.2.2 _ (some zeroKey64) iv12 _
      { id := .str "t1", status := .str "activo" }
      "000102030405060708090a0b:0d6ecf3091f253b41576d73899fa5bbc:bfbd"
      { code := some "ER_DUP_ENTRY", message := some "Duplicate entry t1 ana" }
      (by decide) (by decide) rfl rfl (by decide) rfl rfl rfl

/-- C8 counterexample: a register request failing on a duplicate-key
storage error answers 500 whose error field is the driver's own
message, not a generic internal-failure message — the claim that the
body never contains the underlying error's message is false. -/
theorem internal_error_message_leaked :
    registerHandler
        { getConn := .ok (),
          lookupTenant := fun _ => .ok (some { id := .str "t1", status := .str "activo" }),
          lookupExistingUser := fun _ _ => .ok false,
          insertUser := fun _ _ =>
            .error { code := some "ER_DUP_ENTRY", message := some "Duplicate entry t1 ana" } }
        (some zeroKey64) iv12
        { tenant := .str "t1", name := .str "Ana", email := .str "ana@x.com", phone := .undef,
          country_code := .undef, password := .str "pw" } =
      respError 500 "Duplicate entry t1 ana" ∧
    ("Duplicate entry t1 ana" : String) ≠ "Error interno." := by
  exact ⟨by decide, by decide⟩

/-! ## Claim C9: trimming and coercion of body fields -/

/-- C9: every body field goes through `toCleanString` — strings are
trimmed, non-strings become `""` — before validation, so a
whitespace-only or non-string required field is answered 400, the
password encrypted at register is the trimmed form of what was sent,
and the password verified at login is the trimmed form of what was
sent. -/
theorem body_fields_trimmed_and_coerced (k : Option String) (iv : List Nat) :
    (∀ s, toCleanString (JsVal.str s) = jsTrim s) ∧
    (∀ v, (∀ s, v ≠ JsVal.str s) → toCleanString v = "") ∧
    (∀ (sL : LoginStore) (bL : LoginBody) (w : String), bL.password = .str w → jsTrim w = "" →
      loginHandler sL k bL = respError 400 "Faltan campos.") ∧
    (∀ (sR : RegisterStore) (bR : RegisterBody), (∀ s, bR.name ≠ JsVal.str s) →
      registerHandler sR k iv bR = respError 400 "Faltan campos.") ∧
    (∀ (sR : RegisterStore) (bR : RegisterBody) (w : String), bR.password = .str w →
      (registerHandler sR k iv bR).ok = true →
      ∃ i hash, i < 4 ∧ encryptPassword k iv (jsTrim w) = .ok hash ∧
        sR.insertUser i (insertParams i (toCleanString bR.tenant) (toCleanString bR.name)
          (jsToLower (toCleanString bR.email)) (toCleanString bR.phone)
          (toCleanString bR.country_code) hash) = .ok ()) ∧
    (∀ (sL : LoginStore) (bL : LoginBody) (w : String) (u : UserRow),
      bL.password = .str w →
      ¬(toCleanString bL.tenant = "" ∨ jsToLower (toCleanString bL.email) = "" ∨
        toCleanString bL.password = "") →
      sL.getConn = .ok () →
      sL.lookupUser (jsToLower (toCleanString bL.email)) (toCleanString bL.tenant) =
        .ok (some u) →
      isActiveStatus u.user_status = true → isActiveStatus u.tenant_status = true →
      verifyPassword k (jsTrim w) (jsToStringOrEmpty u.password_hash) = false →
      loginHandler sL k bL = respError 401 "Credenciales invalidas.") := by
  refine ⟨fun s => rfl, ?_, ?_, ?_, ?_, ?_⟩
  · intro v hv
    cases v with
    | str s => exact absurd rfl (hv s)
    | num n => rfl
    | bool b => rfl
    | nul => rfl
    | undef => rfl
  · intro sL bL w hbw hblank
    have hpw : toCleanString bL.password = "" := by rw [hbw]; exact hblank
    simp only [loginHandler, if_pos (Or.inr (Or.inr hpw))]
  · intro sR bR hname
    have hn : toCleanString bR.name = "" := by
      cases hv : bR.name with
      | str s => exact absurd hv (hname s)
      | num n => rfl
      | bool b => rfl
      | nul => rfl
      | undef => rfl
    simp only [registerHandler, if_pos (Or.inr (Or.inl hn))]
  · intro sR bR w hbw hok
    have hcl : toCleanString bR.password = jsTrim w := by rw [hbw]; rfl
    obtain ⟨i, hash, hi, hhash, hins⟩ := registerHandler_ok_insert sR k iv bR hok
    rw [hcl] at hhash
    exact ⟨i, hash, hi, hhash, hins⟩
  · intro sL bL w u hbw hv hconn hlook hu ht hw
    have hcl : toCleanString bL.password = jsTrim w := by rw [hbw]; rfl
    have hw2 : verifyPassword k (toCleanString bL.password)
        (jsToStringOrEmpty u.password_hash) = false := by rw [hcl]; exact hw
    simp only [loginHandler, if_neg hv, hconn, hlook, hu, ht, Bool.not_true, Bool.or_self,
      Bool.false_eq_true, if_false, hw2]

/-- C9 witness: a whitespace-only login password is a 400; a register
body with a non-string name is a 400; a register sent "  pw  "
encrypts exactly jsTrim "  pw  " = "pw"; a login sent " pw" is
verified as "pw" and fails against a different stored credential. -/
theorem body_fields_trimmed_and_coerced_witness :
    toCleanString (JsVal.num 5) = "" ∧
    loginHandler
        { getConn := .ok (), lookupUser := fun _ _ => .ok none,
          touchLastLogin := fun _ => .ok () } (some zeroKey64)
        { tenant := .str "t1", email := .str "a@b", password := .str "   " } =
      respError 400 "Faltan campos." ∧
    registerHandler
        { getConn := .ok (),
          lookupTenant := fun _ => .ok (some { id := .str "t1", status := .str "activo" }),
          lookupExistingUser := fun _ _ => .ok false, insertUser := fun _ _ => .ok () }
        (some zeroKey64) iv12
        { tenant := .str "t1", name := .nul, email := .str "a@b", phone := .undef,
          country_code := .undef, password := .str "pw" } =
      respError 400 "Faltan campos." ∧
    (∃ i hash, i < 4 ∧ encryptPassword (some zeroKey64) iv12 (jsTrim "  pw  ") = .ok hash ∧
      (fun (_ : Nat) (_ : List JsVal) => (Except.ok () : Except DbError Unit)) i
        (insertParams i (toCleanString (JsVal.str "t1")) (toCleanString (JsVal.str "Ana"))
          (jsToLower (toCleanString (JsVal.str "ana@x.com")))
          (toCleanString (JsVal.undef)) (toCleanString (JsVal.undef)) hash) = .ok ()) ∧
    loginHandler
        { getConn := .ok (),
          lookupUser := fun _ _ => .ok (some
            { id := .num 7, name := .str "Ana", email := .str "ana@x.com", role := .str "user",
              user_status := .str "activo", password_hash := .str "other",
              tenant_id := .str "t1", tenant_status := .str "activo" }),
          touchLastLogin := fun _ => .ok () } (some zeroKey64)
        { tenant := .str "t1", email := .str "ana@x.com", password := .str " pw" } =
      respError 401 "Credenciales invalidas." := by
  refine ⟨?_, ?_, ?_, ?_, ?_⟩
  · exact (body_fields_trimmed_and_coerced (some zeroKey64) iv12).2.1 (JsVal.num 5)
      (fun s h => JsVal.noConfusion h)
  · exact (body_fields_trimmed_and_coerced (some zeroKey64) iv12).2.2.1 _ _ "   " rfl (by decide)
  · exact (body_fields_trimmed_and_coerced (some zeroKey64) iv12).2.2.2.1 _ _
      (fun s h => JsVal.noConfusion h)
  · exact (body_fields_trimmed_and_coerced (some zeroKey64) iv12).2.2.2.2.1
      { getConn := .ok (),
        lookupTenant := fun _ => .ok (some { id := .str "t1", status := .str "activo" }),
        lookupExistingUser := fun _ _ => .ok false, insertUser := fun _ _ => .ok () }
      { tenant := .str "t1", name := .str "Ana", email := .str "ana@x.com", phone := .undef,
        country_code := .undef, password := .str "  pw  " } "  pw  " rfl (by decide)
  · exact (body_fields_trimmed_and_coerced (some zeroKey64) iv12).2.2.2.2.2 _ _ " pw"
      { id := .num 7, name := .str "Ana", email := .str "ana@x.com", role := .str "user",
        user_status := .str "activo", password_hash := .str "other",
        tenant_id := .str "t1", tenant_status := .str "activo" }
      rfl (by decide) rfl rfl (by decide) (by decide) (by decide)

/-! ## Claim C10: created users are always active regular users -/

/-- C10: a successful register always executes one INSERT variant
whose parameter list ends with the constants `"activo"` and `"user"`
for the status and role columns, and the handler's result is
insensitive to any `status` or `role` value carried in the request
body — the client cannot influence the created row's role or
status. -/
theorem register_status_role_fixed (s : RegisterStore) (k : Option String) (iv : List Nat)
    (b : RegisterBody) :
    ((registerHandler s k iv b).ok = true →
      ∃ i hash l, i < 4 ∧
        encryptPassword k iv (toCleanString b.password) = .ok hash ∧
        insertParams i (toCleanString b.tenant) (toCleanString b.name)
          (jsToLower (toCleanString b.email)) (toCleanString b.phone)
          (toCleanString b.country_code) hash = l ++ [JsVal.str "activo", JsVal.str "user"] ∧
        s.insertUser i (insertParams i (toCleanString b.tenant) (toCleanString b.name)
          (jsToLower (toCleanString b.email)) (toCleanString b.phone)
          (toCleanString b.country_code) hash) = .ok ()) ∧
    (∀ v w, registerHandler s k iv { b with status := v, role := w } =
      registerHandler s k iv b) := by
  constructor
  · intro h
    obtain ⟨i, hash, hi, hhash, hok⟩ := registerHandler_ok_insert s k iv b h
    obtain ⟨l, hl⟩ := insertParams_status_role i hi (toCleanString b.tenant)
      (toCleanString b.name) (jsToLower (toCleanString b.email)) (toCleanString b.phone)
      (toCleanString b.country_code) hash
    exact ⟨i, hash, l, hi, hhash, hl, hok⟩
  · intro v w
    rfl

/-- C10 witness: a concrete successful registration, and insensitivity
of the outcome to client-supplied status and role fields. -/
theorem register_status_role_fixed_witness :
    (∃ i hash l, i < 4 ∧
      encryptPassword (some zeroKey64) iv12
        (toCleanString (JsVal.str "pw")) = .ok hash ∧
      insertParams i (toCleanString (JsVal.str "t1")) (toCleanString (JsVal.str "Ana"))
        (jsToLower (toCleanString (JsVal.str "ana@x.com"))) (toCleanString JsVal.undef)
        (toCleanString JsVal.undef) hash = l ++ [JsVal.str "activo", JsVal.str "user"] ∧
      RegisterStore.insertUser
        { getConn := .ok (),
          lookupTenant := fun _ => .ok (some { id := .str "t1", status := .str "activo" }),
          lookupExistingUser := fun _ _ => .ok false, insertUser := fun _ _ => .ok () } i
        (insertParams i (toCleanString (JsVal.str "t1")) (toCleanString (JsVal.str "Ana"))
          (jsToLower (toCleanString (JsVal.str "ana@x.com"))) (toCleanString JsVal.undef)
          (toCleanString JsVal.undef) hash) = .ok ()) ∧
    registerHandler
        { getConn := .ok (),
          lookupTenant := fun _ => .ok (some { id := .str "t1", status := .str "activo" }),
          lookupExistingUser := fun _ _ => .ok false, insertUser := fun _ _ => .ok () }
        (some zeroKey64) iv12
        { tenant := .str "t1", name := .str "Ana", email := .str "ana@x.com", phone := .undef,
          country_code := .undef, password := .str "pw", status := .str "admin",
          role := .str "root" } =
      registerHandler
        { getConn := .ok (),
          lookupTenant := fun _ => .ok (some { id := .str "t1", status := .str "activo" }),
          lookupExistingUser := fun _ _ => .ok false, insertUser := fun _ _ => .ok () }
        (some zeroKey64) iv12
        { tenant := .str "t1", name := .str "Ana", email := .str "ana@x.com", phone := .undef,
          country_code := .undef, password := .str "pw" } := by
  constructor
  · exact (register_status_role_fixed
      { getConn := .ok (),
        lookupTenant := fun _ => .ok (some { id := .str "t1", status := .str "activo" }),
        lookupExistingUser := fun _ _ => .ok false, insertUser := fun _ _ => .ok () }
      (some zeroKey64) iv12
      { tenant := .str "t1", name := .str "Ana", email := .str "ana@x.com", phone := .undef,
        country_code := .undef, password := .str "pw" }).1 (by decide)
  · exact (register_status_role_fixed
      { getConn := .ok (),
        lookupTenant := fun _ => .ok (some { id := .str "t1", status := .str "activo" }),
        lookupExistingUser := fun _ _ => .ok false, insertUser := fun _ _ => .ok () }
      (some zeroKey64) iv12
      { tenant := .str "t1", name := .str "Ana", email := .str "ana@x.com", phone := .undef,
        country_code := .undef, password := .str "pw" }).2 (.str "admin") (.str "root")
